import Mathlib

/-
Shallow embedding of the OrquestadorDFLibre core:
  src/core/state_manager.py   (StateManager)
  src/core/script_runner.py   (ScriptRunner.run_script)
  src/ui/main_window.py       (build_dependency_graph, run_scheduled_scripts)
Python dicts are modelled as association lists that keep insertion order;
script paths and variable names are strings, stored values are abstracted
to natural numbers (the orchestrator never inspects a value).
-/

namespace Orquestador

abbrev Value := Nat

/-- First-match lookup in an association list, the model of `d[k]` /
`d.get(k)` on a Python dict (insertion-ordered, unique keys). -/
def lookupA {α : Type} : List (String × α) → String → Option α
  | [], _ => none
  | (k', v) :: rest, k => if k' = k then some v else lookupA rest k

/-- Model of `k in d` on a Python dict. -/
def hasKey {α : Type} (d : List (String × α)) (k : String) : Bool :=
  (lookupA d k).isSome

/-- Model of `d[k] = v` on a Python dict: an existing key keeps its
position and gets the new value, a new key is appended. -/
def setKey {α : Type} : List (String × α) → String → α → List (String × α)
  | [], k, v => [(k, v)]
  | (k', v') :: rest, k, v =>
    if k' = k then (k, v) :: rest else (k', v') :: setKey rest k v

/-- Model of `d.update(upd)` on a Python dict. -/
def dictUpdate {α : Type} (d upd : List (String × α)) : List (String × α) :=
  upd.foldl (fun acc kv => setKey acc kv.1 kv.2) d

/-- The per-script state strings used by `StateManager.script_states`:
"idle", "running", "partial_finished", "finished", "error". -/
inductive ScriptState where
  | idle
  | running
  | partialFinished
  | finished
  | error
deriving DecidableEq, Repr

/-- The registry entry for one script (`shared/registry.discover_scripts`
stores, per path, its PRODUCE and REQUIRES marker variables). -/
structure ScriptMeta where
  produces : List String
  requires : List String
deriving DecidableEq, Repr

/-- One directed edge of the `networkx.DiGraph` built by
`MainWindow.build_dependency_graph`: producer path, consumer path, and the
`var=` attribute. -/
structure DepEdge where
  src : String
  dst : String
  var : String
deriving DecidableEq, Repr

/-- Model of `G.add_edge(s, d, var=v)` on a `networkx.DiGraph`: a DiGraph
holds at most one edge per (src, dst) pair, so adding an edge that already
exists overwrites its attributes in place. -/
def addEdge : List DepEdge → String → String → String → List DepEdge
  | [], s, d, v => [⟨s, d, v⟩]
  | e :: rest, s, d, v =>
    if e.src = s ∧ e.dst = d then ⟨s, d, v⟩ :: rest
    else e :: addEdge rest s d v

/-- Model of `var_producers.setdefault(var, []).append(path)`. -/
def appendProducer : List (String × List String) → String → String →
    List (String × List String)
  | [], v, p => [(v, [p])]
  | (v', ps) :: rest, v, p =>
    if v' = v then (v', ps ++ [p]) :: rest
    else (v', ps) :: appendProducer rest v p

/-- The `var_producers` map of `build_dependency_graph`: for every script
(in registry order), every produced variable maps to the list of its
producers in first-seen order. -/
def varProducers (registry : List (String × ScriptMeta)) :
    List (String × List String) :=
  registry.foldl
    (fun acc pm => pm.2.produces.foldl (fun acc2 v => appendProducer acc2 v pm.1) acc)
    []

/-- Model of `var_producers.get(var, [])`. -/
def lookupMulti (m : List (String × List String)) (v : String) : List String :=
  (lookupA m v).getD []

/-- Model of `MainWindow.build_dependency_graph` (src/ui/main_window.py:581): for
every script, for every variable in its requires list, add an edge from
each producer of that variable to the consumer, labeled with the
variable, into a `networkx.DiGraph`. -/
def buildDependencyGraph (registry : List (String × ScriptMeta)) :
    List DepEdge :=
  let vp := varProducers registry
  registry.foldl
    (fun es pm =>
      pm.2.requires.foldl
        (fun es2 v => (lookupMulti vp v).foldl (fun es3 p => addEdge es3 p pm.1 v) es2)
        es)
    []

/-- Model of `networkx.DiGraph.predecessors(p)`: sources of the edges into
`p`, in edge-insertion order (a DiGraph keeps one edge per pair). -/
def predecessors (es : List DepEdge) (p : String) : List String :=
  (es.filter (fun e => e.dst = p)).map (fun e => e.src)

/-- Model of `StateManager.get_source_script` (src/core/state_manager.py:33): scan
the registry in order and return the first script whose produces list
contains the variable. -/
def getSourceScript : List (String × ScriptMeta) → String → Option String
  | [], _ => none
  | (p, m) :: rest, v =>
    if m.produces.contains v then some p else getSourceScript rest v

/-- The mutable state that `StateManager` threads through a run: `data`
(the variable store), `script_states`, plus observation logs: `events`
records every `scriptStateChanged.emit(path, state)` (the handler in
`MainWindow.handle_script_state_change` only recolors the graph node, it
never writes back into `script_states`), `execLog` records every
`exec(script_code, ...)` invocation in order, `console` records the lines
the executed code printed to the shared stdout (the orchestrator never
captures or reads them), and `writeLog` records each
`self.data.update(produced_vars)` batch with the produced names. -/
structure MState where
  data : List (String × Value)
  states : List (String × ScriptState)
  events : List (String × ScriptState)
  execLog : List String
  console : List String
  writeLog : List (String × List String)
deriving DecidableEq, Repr

/-- The namespace handed to `exec`: `for var_name in required_vars: if
var_name in self.data: script_namespace[var_name] = self.data[var_name]`
(src/core/state_manager.py:96). -/
def injectRequired (reqs : List String) (data : List (String × Value)) :
    List (String × Value) :=
  reqs.foldl
    (fun ns v =>
      match lookupA data v with
      | some val => setKey ns v val
      | none => ns)
    []

/-- Capture of the produced variables from the post-`exec` namespace
(src/core/state_manager.py:103): each declared produced name is read from
the namespace; a missing name raises `NameError` (modelled as `none`),
which the surrounding `except` turns into the error path. -/
def capturedProduces (produces : List String) (ns : List (String × Value)) :
    Option (List (String × Value)) :=
  produces.foldl
    (fun acc v =>
      match acc with
      | none => none
      | some d =>
        match lookupA ns v with
        | some val => some (setKey d v val)
        | none => none)
    (some [])

/-- The non-recursive tail of `StateManager.run_script_with_dependencies`
(src/core/state_manager.py:71-124), from the missing-variables check to
the state update.  The behaviour of `exec` on a script is abstracted by
`behav` (the namespace it leaves behind, `none` when it raises) and
`outBehav` (the lines it prints, which the code never looks at). -/
def runTarget (behav : String → List (String × Value) → Option (List (String × Value)))
    (outBehav : String → List (String × Value) → List String)
    (meta : ScriptMeta) (path : String) (stopAtProduces : Bool)
    (st : MState) : MState :=
  let missing := meta.requires.filter (fun v => ! hasKey st.data v)
  if missing ≠ [] then
    { st with events := st.events ++ [(path, ScriptState.error)] }
  else
    let st1 := { st with events := st.events ++ [(path, ScriptState.running)] }
    let ns0 := injectRequired meta.requires st1.data
    let st2 := { st1 with
      execLog := st1.execLog ++ [path],
      console := st1.console ++ outBehav path ns0 }
    match behav path ns0 with
    | none =>
      { st2 with
        states := setKey st2.states path ScriptState.error,
        events := st2.events ++ [(path, ScriptState.error)] }
    | some ns1 =>
      match capturedProduces meta.produces ns1 with
      | none =>
        { st2 with
          states := setKey st2.states path ScriptState.error,
          events := st2.events ++ [(path, ScriptState.error)] }
      | some produced =>
        let fin := if stopAtProduces then ScriptState.partialFinished
                   else ScriptState.finished
        { st2 with
          data := dictUpdate st2.data produced,
          writeLog := st2.writeLog ++ [(path, produced.map Prod.fst)],
          states := setKey st2.states path fin,
          events := st2.events ++ [(path, fin)] }

/-- Model of `StateManager.run_script_with_dependencies`
(src/core/state_manager.py:59-124).  The Python recursion has no cycle
guard and no depth bound, so it is modelled with explicit fuel: `none`
means the recursion budget was exhausted (Python: `RecursionError`) or a
`KeyError` escaped (`self.script_states[path]` / `self.registry[path]` on
an unknown path).  Recursive calls on predecessors pass
`stop_at_produces=False` and the default `force_run=False`, exactly as in
the source. -/
def runWD (behav : String → List (String × Value) → Option (List (String × Value)))
    (outBehav : String → List (String × Value) → List String)
    (registry : List (String × ScriptMeta)) :
    Nat → String → Bool → Bool → MState → Option MState
  | 0, _, _, _, _ => none
  | fuel + 1, path, stopAtProduces, forceRun, st =>
    match lookupA st.states path with
    | none => none
    | some s =>
      if (s = ScriptState.finished ∨ s = ScriptState.partialFinished) ∧
          forceRun = false then
        some st
      else
        let preds := predecessors (buildDependencyGraph registry) path
        let afterPreds := preds.foldl
          (fun acc p =>
            match acc with
            | none => none
            | some st1 =>
              if hasKey st1.states p then
                runWD behav outBehav registry fuel p false false st1
              else some st1)
          (some st)
        match afterPreds with
        | none => none
        | some st2 =>
          match lookupA registry path with
          | none => none
          | some meta => some (runTarget behav outBehav meta path stopAtProduces st2)

/-- Model of `StateManager.update_states_from_registry`
(src/core/state_manager.py:16): add an `idle` entry for every registry
path that has no state yet, then drop the states of paths no longer in
the registry. -/
def updateStatesFromRegistry (registry : List (String × ScriptMeta))
    (states : List (String × ScriptState)) : List (String × ScriptState) :=
  let added := registry.foldl
    (fun st pm => if hasKey st pm.1 then st else st ++ [(pm.1, ScriptState.idle)])
    states
  added.filter (fun ps => hasKey registry ps.1)

/-- One step of backward reachability over the edge list. -/
def ancSetStep (es : List DepEdge) (s : List String) : List String :=
  es.foldl
    (fun acc e => if acc.contains e.dst ∧ ¬ acc.contains e.src then acc ++ [e.src] else acc)
    s

/-- Model of `networkx.ancestors(G, target)`: every node with a directed
path to `target`, excluding `target` itself. -/
def ancSet (es : List DepEdge) (target : String) : List String :=
  ((ancSetStep es)^[es.length + 1] [target]).filter (fun p => p ≠ target)

/-- The `missing_dependencies` set of `check_dependencies_and_run`
(src/core/state_manager.py:135): the `var` labels of subgraph edges whose
source is not finished or partial_finished.  `self.script_states[u]` on
an unknown source would raise `KeyError`, modelled as `none`. -/
def missingDepVars (subEdges : List DepEdge)
    (states : List (String × ScriptState)) : Option (List String) :=
  subEdges.foldl
    (fun acc e =>
      match acc with
      | none => none
      | some vs =>
        match lookupA states e.src with
        | none => none
        | some s =>
          if s = ScriptState.finished ∨ s = ScriptState.partialFinished then some vs
          else if vs.contains e.var then some vs else some (vs ++ [e.var]))
    (some [])

/-- Model of `StateManager.check_dependencies_and_run`
(src/core/state_manager.py:126-145): refresh the state map from the
registry, collect the unsatisfied edge labels over the ancestor subgraph
of the target, run the target's `idle` graph predecessors if any label is
unsatisfied, then run the target itself. -/
def checkDependenciesAndRun
    (behav : String → List (String × Value) → Option (List (String × Value)))
    (outBehav : String → List (String × Value) → List String)
    (registry : List (String × ScriptMeta)) (fuel : Nat) (path : String)
    (stopAtProduces forceRun : Bool) (st : MState) : Option MState :=
  let st0 := { st with states := updateStatesFromRegistry registry st.states }
  let es := buildDependencyGraph registry
  let sub := ancSet es path ++ [path]
  let subEdges := es.filter (fun e => sub.contains e.src ∧ sub.contains e.dst)
  match missingDepVars subEdges st0.states with
  | none => none
  | some mvs =>
    let afterPreds :=
      if mvs ≠ [] then
        (predecessors es path).foldl
          (fun acc p =>
            match acc with
            | none => none
            | some st1 =>
              if hasKey st1.states p ∧ lookupA st1.states p = some ScriptState.idle then
                runWD behav outBehav registry fuel p false false st1
              else some st1)
          (some st0)
      else some st0
    match afterPreds with
    | none => none
    | some st2 => runWD behav outBehav registry fuel path stopAtProduces forceRun st2

/-- One statement of a user script's body, with the effects the executor
pipeline can observe: binding a global, printing a line, `sys.exit(code)`
(no stderr output), or raising (traceback on stderr, exit code 1). -/
inductive PStmt where
  | assign (v : String) (val : Value)
  | printLn (s : String)
  | sysExit (code : Nat)
  | raiseErr (msg : String)
deriving DecidableEq, Repr

/-- One line of a script source as `ScriptRunner.run_script` sees it: a
statement, a `# ORCHESTRATOR.PRODUCE: v` marker line, a
`# ORCHESTRATOR.REQUIRES: v` marker line, or any other comment. -/
inductive SrcLine where
  | stmtLine (s : PStmt)
  | produceMarker (v : String)
  | requireMarker (v : String)
  | commentLine
deriving DecidableEq, Repr

/-- One line of the generated temporary script: the original lines plus,
in partial-stop mode, the inserted guarded stop block
`if 'v' in globals(): print(f'ORCHESTRATOR_PARTIAL_STOP: v'); sys.exit(0)`. -/
inductive TLine where
  | stmtLine (s : PStmt)
  | markerLine (v : String)
  | commentLine
  | stopCheck (v : String)
deriving DecidableEq, Repr

/-- The `re.findall(r"#\s*ORCHESTRATOR\.PRODUCE: ...")` extraction at the
top of `run_script` (src/core/script_runner.py:41): all PRODUCE marker
variables in source order, without deduplication. -/
def extractProduces (src : List SrcLine) : List String :=
  src.filterMap
    (fun l =>
      match l with
      | SrcLine.produceMarker v => some v
      | _ => none)

/-- The partial-stop source transformation
(src/core/script_runner.py:76-88): every line is kept, and after each
line containing `# ORCHESTRATOR.PRODUCE` the guarded stop block is
inserted (`var_name = line.split(":")[-1].strip()`). -/
def stopTransform : List SrcLine → List TLine
  | [] => []
  | SrcLine.stmtLine s :: rest => TLine.stmtLine s :: stopTransform rest
  | SrcLine.produceMarker v :: rest =>
    TLine.markerLine v :: TLine.stopCheck v :: stopTransform rest
  | SrcLine.requireMarker _ :: rest => TLine.commentLine :: stopTransform rest
  | SrcLine.commentLine :: rest => TLine.commentLine :: stopTransform rest

/-- The identity embedding of the source lines used when
`stop_at_produces` is false. -/
def plainLines : List SrcLine → List TLine
  | [] => []
  | SrcLine.stmtLine s :: rest => TLine.stmtLine s :: plainLines rest
  | SrcLine.produceMarker v :: rest => TLine.markerLine v :: plainLines rest
  | SrcLine.requireMarker _ :: rest => TLine.commentLine :: plainLines rest
  | SrcLine.commentLine :: rest => TLine.commentLine :: plainLines rest

/-- Result of running the generated temporary script's body in the
isolated interpreter: final globals, stdout, stderr, exit code, and
whether the body fell through to the write-back postlude. -/
structure ProcRun where
  globalsEnd : List (String × Value)
  out : List String
  err : List String
  exitCode : Nat
  completed : Bool
deriving DecidableEq, Repr

/-- Execution of the generated body by the isolated Python process.  The
initial globals are the injected state variables (loaded by the generated
prelude).  A `stopCheck v` fires only when `v` is already bound, printing
the sentinel line and exiting with code 0, skipping everything after it
(including the write-back postlude). -/
def runTLines : List TLine → List (String × Value) → List String → ProcRun
  | [], g, acc => ⟨g, acc, [], 0, true⟩
  | TLine.stmtLine (PStmt.assign v val) :: rest, g, acc =>
    runTLines rest (setKey g v val) acc
  | TLine.stmtLine (PStmt.printLn s) :: rest, g, acc =>
    runTLines rest g (acc ++ [s])
  | TLine.stmtLine (PStmt.sysExit c) :: _, g, acc => ⟨g, acc, [], c, false⟩
  | TLine.stmtLine (PStmt.raiseErr m) :: _, g, acc => ⟨g, acc, [m], 1, false⟩
  | TLine.markerLine _ :: rest, g, acc => runTLines rest g acc
  | TLine.commentLine :: rest, g, acc => runTLines rest g acc
  | TLine.stopCheck v :: rest, g, acc =>
    if hasKey g v then
      ⟨g, acc ++ ["ORCHESTRATOR_PARTIAL_STOP: " ++ v], [], 0, false⟩
    else runTLines rest g acc

/-- The write-back postlude of the generated script
(src/core/script_runner.py:94-100): `produced_vars` collects every
regex-declared produced name that is bound in the final globals and was
not among the initial globals, and overwrites the state file with it. -/
def postludeFile (produces : List String) (stateData : List (String × Value))
    (g : List (String × Value)) : List (String × Value) :=
  produces.foldl
    (fun d v =>
      if hasKey g v && ! hasKey stateData v then
        match lookupA g v with
        | some val => setKey d v val
        | none => d
      else d)
    []

/-- What `ScriptRunner.run_script` returns (src/core/script_runner.py:104
-125): the dict loaded back from the state file (only when stderr is
empty; `{}` otherwise), the captured stdout lines, the captured stderr
lines, and the process exit code (captured by `subprocess.run` but never
consulted). -/
structure RunOutcome where
  producedData : List (String × Value)
  output : List String
  errorLines : List String
  exitCode : Nat
deriving DecidableEq, Repr

/-- Model of `ScriptRunner.run_script` (src/core/script_runner.py:19-125).  The
state file initially holds `state_data`; the postlude overwrites it with
the produced variables only when the body falls through normally.  After
the process exits, the file is loaded back as the produced data only when
stderr is empty. -/
def runScript (src : List SrcLine) (stateData : List (String × Value))
    (stopAtProduces : Bool) : RunOutcome :=
  let produces := extractProduces src
  let body := if stopAtProduces then stopTransform src else plainLines src
  let r := runTLines body stateData []
  let fileAfter :=
    if r.completed then postludeFile produces stateData r.globalsEnd
    else stateData
  let exitC := if r.completed then 0 else r.exitCode
  let produced := if r.err = [] then fileAfter else []
  ⟨produced, r.out, r.err, exitC⟩

/-- One persisted schedule entry as built by `MainWindow.on_schedule_script`
(src/ui/main_window.py:887-914): script path, frequency string, time of
day (modelled in minutes; the source compares `"hh:mm"` strings for
equality), optional last-run timestamp (absolute minutes), weekly day
list (day numbers standing for the day-name strings), and the hour
interval.  The scheduler dialog also shows a retry-interval field
(`retry_interval_input`, src/ui/main_window.py:395), carried here as
`retryIntervalMinutes`, but `on_schedule_script` never stores it and
`run_scheduled_scripts` never reads it. -/
structure ScheduleConfig where
  scriptPath : String
  frequency : String
  timeOfDay : Nat
  lastRun : Option Nat
  days : List Nat
  hoursInterval : Nat
  retryIntervalMinutes : Nat
deriving DecidableEq, Repr

/-- The per-entry trigger test of `MainWindow.run_scheduled_scripts`
(src/ui/main_window.py:930-963): daily fires on exact time-of-day match,
weekly additionally requires today's day in the entry's day list, and
interval mode fires when `last_run` is unset or `last_run + hours*3600s`
has passed.  No other condition fires an entry. -/
def scheduleFires (nowMin nowDay nowAbs : Nat) (cfg : ScheduleConfig) : Bool :=
  if cfg.frequency = "Diario" then cfg.timeOfDay == nowMin
  else if cfg.frequency = "Semanal" then
    cfg.timeOfDay == nowMin && cfg.days.contains nowDay
  else if cfg.frequency = "Cada X horas" then
    match cfg.lastRun with
    | none => true
    | some lr => decide (lr + cfg.hoursInterval * 60 ≤ nowAbs)
  else false

/-- Model of `MainWindow.run_scheduled_scripts` over the entry list: for each
entry that fires, invoke the orchestrator on its script (collected in
order in the first component) and set its `last_run` to now; every other
entry is kept unchanged. -/
def runScheduledScripts (nowMin nowDay nowAbs : Nat)
    (cfgs : List ScheduleConfig) : List String × List ScheduleConfig :=
  cfgs.foldl
    (fun acc cfg =>
      if scheduleFires nowMin nowDay nowAbs cfg then
        (acc.1 ++ [cfg.scriptPath], acc.2 ++ [{ cfg with lastRun := some nowAbs }])
      else (acc.1, acc.2 ++ [cfg]))
    ([], [])

/-- Spec wording for provenance lookup: the first registry entry whose
produces set contains the variable, if any. -/
def specFirstProducer (registry : List (String × ScriptMeta)) (v : String) :
    Option String :=
  (registry.find? (fun pm => pm.2.produces.contains v)).map (fun pm => pm.1)

/-- Spec wording for "the script that most recently wrote a variable":
the last entry of the write log whose produced names contain it. -/
def specLastWriter (log : List (String × List String)) (v : String) :
    Option String :=
  log.foldl (fun acc e => if e.2.contains v then some e.1 else acc) none

/-- Two edges differ as DiGraph edges: they do not share both endpoints. -/
def edgeKeyNe (e1 e2 : DepEdge) : Prop :=
  ¬ (e1.src = e2.src ∧ e1.dst = e2.dst)

/-- An `exec` behaviour that binds nothing (never reached in the cyclic
scenario). -/
def bNone : String → List (String × Value) → Option (List (String × Value)) :=
  fun _ _ => some []

/-- An `exec` behaviour that prints nothing. -/
def oNone : String → List (String × Value) → List String := fun _ _ => []

/-- The cyclic registry of the spec's cycle-detection property: A requires
v and produces w, B requires w and produces v. -/
def cycReg : List (String × ScriptMeta) :=
  [("A", ⟨["w"], ["v"]⟩), ("B", ⟨["v"], ["w"]⟩)]

/-- Fresh state for the cyclic registry: empty store, both scripts idle. -/
def st0AB : MState := ⟨[], [("A", .idle), ("B", .idle)], [], [], [], []⟩

/-- The two-script registry of the resolution-order property: A produces
x from nothing, B produces y from x. -/
def reg2 : List (String × ScriptMeta) :=
  [("A", ⟨["x"], []⟩), ("B", ⟨["y"], ["x"]⟩)]

/-- The `exec` behaviour for `reg2`: script A binds x to 1, script B binds y
to 2 next to its injected inputs. -/
def behav2 : String → List (String × Value) → Option (List (String × Value))
  | "A", _ => some [("x", 1)]
  | "B", ns => some (setKey ns "y" 2)
  | _, _ => none

/-- Completely fresh orchestrator state (empty store, no states yet). -/
def stEmpty : MState := ⟨[], [], [], [], [], []⟩

/-- State after a successful `reg2` run of A, used as an idempotence
witness input. -/
def stFin : MState :=
  ⟨[("x", 1)], [("A", .finished), ("B", .idle)], [], [], [], []⟩

/-- Single-script registry for the sentinel-classification scenario. -/
def reg5 : List (String × ScriptMeta) := [("S", ⟨["x"], []⟩)]

/-- The `exec` behaviour for `reg5`: S binds x to 1 and prints nothing. -/
def behav5 : String → List (String × Value) → Option (List (String × Value))
  | "S", _ => some [("x", 1)]
  | _, _ => none

/-- Fresh state for `reg5`. -/
def st5 : MState := ⟨[], [("S", .idle)], [], [], [], []⟩

/-- Registry for the unsatisfied-dependency scenario: P produces w, C
requires z (which nothing produces) and w. -/
def reg7 : List (String × ScriptMeta) :=
  [("P", ⟨["w"], []⟩), ("C", ⟨[], ["z", "w"]⟩)]

/-- The `exec` behaviour for `reg7`: P binds w to 1. -/
def behav7 : String → List (String × Value) → Option (List (String × Value))
  | "P", _ => some [("w", 1)]
  | _, _ => none

/-- Fresh state for `reg7`. -/
def st7 : MState := ⟨[], [("P", .idle), ("C", .idle)], [], [], [], []⟩

/-- Registry in which producer P and consumer C share two variables. -/
def reg8 : List (String × ScriptMeta) :=
  [("P", ⟨["a", "b"], []⟩), ("C", ⟨[], ["a", "b"]⟩)]

/-- Registry with two producers of the same variable x, P1 first. -/
def reg10 : List (String × ScriptMeta) :=
  [("P1", ⟨["x"], []⟩), ("P2", ⟨["x"], []⟩)]

/-- The `exec` behaviour for `reg10`: only P2 is ever run; it binds x to 2. -/
def behav10 : String → List (String × Value) → Option (List (String × Value))
  | "P2", _ => some [("x", 2)]
  | _, _ => none

/-- Fresh state for `reg10`. -/
def st10 : MState := ⟨[], [("P1", .idle), ("P2", .idle)], [], [], [], []⟩

/-- A script that binds p1, declares it produced, then binds p2 and
declares it produced — the spec's partial-stop scenario. -/
def src4 : List SrcLine :=
  [.stmtLine (.assign "p1" 1), .produceMarker "p1",
   .stmtLine (.assign "p2" 2), .produceMarker "p2"]

/-- A script whose process exits with code 1 without writing to stderr. -/
def src6 : List SrcLine := [.stmtLine (.sysExit 1)]

/-- A daily schedule entry for 09:00 with a 5-minute retry interval and a
last run at absolute minute 1000. -/
def cfg9 : ScheduleConfig := ⟨"S", "Diario", 540, some 1000, [], 0, 5⟩

/-- Looking up the key just set always yields the new value. -/
theorem lookupA_setKey_self {α : Type} (d : List (String × α)) (k : String)
    (v : α) : lookupA (setKey d k v) k = some v := by
  induction d with
  | nil => simp [setKey, lookupA]
  | cons hd tl ih =>
    obtain ⟨k', v'⟩ := hd
    by_cases h : k' = k
    · simp [setKey, h, lookupA]
    · simp [setKey, h, lookupA, ih]

/-- Unfolding `runWD` once on script A of the cyclic registry: A's only
predecessor is B, so the call reduces to the recursive call on B with one
unit of fuel less. -/
theorem runWDCycStepA (n : Nat) :
    runWD bNone oNone cycReg (n + 1) "A" false false st0AB =
      (match runWD bNone oNone cycReg n "B" false false st0AB with
       | none => none
       | some st2 =>
         some (runTarget bNone oNone ⟨["w"], ["v"]⟩ "A" false st2)) := rfl

/-- Unfolding `runWD` once on script B of the cyclic registry: B's only
predecessor is A. -/
theorem runWDCycStepB (n : Nat) :
    runWD bNone oNone cycReg (n + 1) "B" false false st0AB =
      (match runWD bNone oNone cycReg n "A" false false st0AB with
       | none => none
       | some st2 =>
         some (runTarget bNone oNone ⟨["v"], ["w"]⟩ "B" false st2)) := rfl

/-- On the cyclic registry every recursion budget is exhausted, for both
entry points: the mutual recursion A → B → A … mutates nothing before
recursing, so no budget ever suffices. -/
theorem runWDCycNone (n : Nat) :
    runWD bNone oNone cycReg n "A" false false st0AB = none ∧
    runWD bNone oNone cycReg n "B" false false st0AB = none := by
  induction n with
  | zero => exact ⟨rfl, rfl⟩
  | succ n ih =>
    refine ⟨?_, ?_⟩
    · rw [runWDCycStepA n, ih.2]
    · rw [runWDCycStepB n, ih.1]

/-- C1 (amended): on the cyclic registry {A: requires v, produces w},
{B: requires w, produces v}, `run_script_with_dependencies("A")` has no
cycle guard and recurses without bound: every recursion budget is
exhausted (in Python a `RecursionError` escapes), no `CycleError` is
produced, and A's state is never set to `error` — the run produces no
result state at all. -/
theorem c1_cycle_unbounded (fuel : Nat) :
    runWD bNone oNone cycReg fuel "A" false false st0AB = none :=
  (runWDCycNone fuel).1

/-- C1 counterexample: contrary to the claim, `resolveAndRun("A")` on the
cyclic registry never terminates with any result — in particular it never
fails with `CycleError` and never sets A's state to `error`; the
recursion is unbounded. -/
theorem c1_cex :
    ¬ ∃ fuel st', runWD bNone oNone cycReg fuel "A" false false st0AB = some st' := by
  rintro ⟨fuel, st', h⟩
  rw [(runWDCycNone fuel).1] at h
  exact Option.noConfusion h

/-- C2: on registry {A: produces x}, {B: produces y, requires x} with an
empty store, `check_dependencies_and_run("B")` executes A and then B,
leaves both states `finished`, and the store holds x (provenance A) and
y (provenance B). -/
theorem c2_resolution_order :
    (checkDependenciesAndRun behav2 oNone reg2 4 "B" false false stEmpty).map
        (fun s => (s.execLog, lookupA s.states "A", lookupA s.states "B",
                   lookupA s.data "x", lookupA s.data "y")) =
      some (["A", "B"], some ScriptState.finished, some ScriptState.finished,
            some 1, some 2) ∧
    getSourceScript reg2 "x" = some "A" ∧
    getSourceScript reg2 "y" = some "B" :=
  ⟨rfl, rfl, rfl⟩

/-- C3: when the target's tracked state is `finished` or
`partial_finished` and `force_run` is false,
`run_script_with_dependencies` returns at its first guard: the whole
orchestrator state — store, state map, event log, execution log — is
returned unchanged and nothing is executed. -/
theorem c3_idempotent_guard
    (behav : String → List (String × Value) → Option (List (String × Value)))
    (outBehav : String → List (String × Value) → List String)
    (registry : List (String × ScriptMeta)) (fuel : Nat) (path : String)
    (stop : Bool) (s : ScriptState) (st : MState)
    (h1 : lookupA st.states path = some s)
    (h2 : s = ScriptState.finished ∨ s = ScriptState.partialFinished) :
    runWD behav outBehav registry (fuel + 1) path stop false st = some st := by
  simp only [runWD, h1]
  rw [if_pos ⟨h2, trivial⟩]

/-- C3 witness: a concrete state in which A is `finished`; the second
non-forced run of A returns the state untouched. -/
theorem c3_idempotent_guard_witness :
    lookupA stFin.states "A" = some ScriptState.finished ∧
    runWD bNone oNone reg2 1 "A" false false stFin = some stFin :=
  ⟨rfl, c3_idempotent_guard bNone oNone reg2 0 "A" false ScriptState.finished
    stFin rfl (Or.inl rfl)⟩

/-- C4: evaluation of `ScriptRunner.run_script` at the spec's partial-stop
scenario (script binding p1, marking it produced, then binding p2): the
sentinel line is printed and the process exits with code 0 without
running the remainder (p2 is never bound), but the returned produced
values are empty — the inserted `sys.exit(0)` skips the write-back
postlude, so p1 is NOT in the returned values, contrary to the claim. -/
theorem c4_partial_stop_eval :
    (runScript src4 [] true).output = ["ORCHESTRATOR_PARTIAL_STOP: p1"] ∧
    (runScript src4 [] true).exitCode = 0 ∧
    (runScript src4 [] true).errorLines = [] ∧
    (runScript src4 [] true).producedData = [] ∧
    lookupA (runScript src4 [] true).producedData "p1" = none ∧
    (runTLines (stopTransform src4) [] []).globalsEnd = [("p1", 1)] :=
  ⟨rfl, rfl, rfl, rfl, rfl, rfl⟩

/-- C5 (amended): after a successful execution of the target (no missing
required variables, `exec` returns normally, every declared produced
variable is captured), `run_script_with_dependencies` sets the target's
state to `partial_finished` exactly when the `stop_at_produces` flag was
passed; the script's printed output is never consulted. -/
theorem c5_flag_classification
    (behav : String → List (String × Value) → Option (List (String × Value)))
    (outBehav : String → List (String × Value) → List String)
    (meta : ScriptMeta) (path : String) (stop : Bool) (st : MState)
    (ns : List (String × Value))
    (h1 : meta.requires.filter (fun v => ! hasKey st.data v) = [])
    (h2 : behav path (injectRequired meta.requires st.data) = some ns)
    (h3 : (capturedProduces meta.produces ns).isSome = true) :
    (lookupA (runTarget behav outBehav meta path stop st).states path =
        some ScriptState.partialFinished ↔ stop = true) := by
  obtain ⟨produced, hp⟩ := Option.isSome_iff_exists.mp h3
  simp only [runTarget, h1, h2, hp]
  rw [if_neg (fun hc => hc rfl)]
  dsimp only
  rw [lookupA_setKey_self]
  cases stop <;> simp

/-- C5 witness: a concrete successful execution with the flag set. -/
theorem c5_flag_witness :
    (ScriptMeta.mk ["x"] []).requires.filter (fun v => ! hasKey st5.data v) = [] ∧
    behav5 "S" (injectRequired (ScriptMeta.mk ["x"] []).requires st5.data) =
      some [("x", 1)] ∧
    (lookupA (runTarget behav5 oNone ⟨["x"], []⟩ "S" true st5).states "S" =
        some ScriptState.partialFinished ↔ true = true) :=
  ⟨rfl, rfl, c5_flag_classification behav5 oNone ⟨["x"], []⟩ "S" true st5
    [("x", 1)] rfl rfl rfl⟩

/-- C5 counterexample: a successful run with `stop_at_produces=true` whose
script printed nothing at all is still classified `partial_finished`,
although no `ORCHESTRATOR_PARTIAL_STOP` sentinel appears anywhere in the
run's output — the classification depends on the flag, not on the
output. -/
theorem c5_cex :
    (runWD behav5 oNone reg5 2 "S" true false st5).map
        (fun s => (lookupA s.states "S", s.console)) =
      some (some ScriptState.partialFinished, ([] : List String)) ∧
    (runWD behav5 oNone reg5 2 "S" true false st5).map
        (fun s => s.console.contains ("ORCHESTRATOR_PARTIAL_STOP: " ++ "x")) =
      some false :=
  ⟨rfl, rfl⟩

/-- C6 (amended): `ScriptRunner.run_script` discards the produced values
exactly when the process wrote to its error stream; the exit code is
never consulted, and failure is reported by returning the stderr text
rather than by raising. -/
theorem c6_stderr_discard (src : List SrcLine)
    (stateData : List (String × Value)) (stop : Bool)
    (h : (runScript src stateData stop).errorLines ≠ []) :
    (runScript src stateData stop).producedData = [] := by
  simp only [runScript] at h ⊢
  rw [if_neg h]

/-- C6 witness: a raising script has non-empty stderr and its produced
values are discarded. -/
theorem c6_stderr_witness :
    (runScript [SrcLine.stmtLine (PStmt.raiseErr "boom")] [] false).errorLines ≠ [] ∧
    (runScript [SrcLine.stmtLine (PStmt.raiseErr "boom")] [] false).producedData = [] :=
  ⟨by decide, c6_stderr_discard [SrcLine.stmtLine (PStmt.raiseErr "boom")] []
    false (by decide)⟩

/-- C6 counterexample: a process that exits with code 1 but writes nothing
to stderr — the runner still loads the state file and returns its
contents as produced data, contrary to the claim that a non-zero exit
code makes the outputs unusable. -/
theorem c6_cex :
    (runScript src6 [("a", 1)] false).exitCode = 1 ∧
    (runScript src6 [("a", 1)] false).errorLines = [] ∧
    (runScript src6 [("a", 1)] false).producedData = [("a", 1)] :=
  ⟨rfl, rfl, rfl⟩

/-- C7 (amended): when a required variable is still missing after the
predecessor runs, `run_script_with_dependencies` emits an `error`
state-change event for the target and returns; the store, the tracked
state map (the target stays as it was, it is NOT set to `error`), and the
execution log are all left exactly as the predecessors left them, and the
target is not executed. -/
theorem c7_missing_vars_event
    (behav : String → List (String × Value) → Option (List (String × Value)))
    (outBehav : String → List (String × Value) → List String)
    (meta : ScriptMeta) (path : String) (stop : Bool) (st : MState)
    (h : meta.requires.filter (fun v => ! hasKey st.data v) ≠ []) :
    runTarget behav outBehav meta path stop st =
      { st with events := st.events ++ [(path, ScriptState.error)] } := by
  simp only [runTarget]
  rw [if_pos h]

/-- C7 witness: a target requiring z on an empty store. -/
theorem c7_missing_witness :
    (ScriptMeta.mk [] ["z"]).requires.filter (fun v => ! hasKey stEmpty.data v) ≠ [] ∧
    runTarget bNone oNone ⟨[], ["z"]⟩ "C" false stEmpty =
      { stEmpty with events := stEmpty.events ++ [("C", ScriptState.error)] } :=
  ⟨by decide, c7_missing_vars_event bNone oNone ⟨[], ["z"]⟩ "C" false stEmpty
    (by decide)⟩

/-- C7 counterexample: on registry {P: produces w}, {C: requires z, w}
with nothing producing z, `resolveAndRun("C")` first runs the producer P
(changing the store to {w: 1}), then emits an `error` event for C — but
C's tracked state remains `idle`, C is not executed, and the store is NOT
left unchanged. -/
theorem c7_cex :
    (runWD behav7 oNone reg7 5 "C" false false st7).map
        (fun s => (lookupA s.states "C", s.data, s.execLog,
                   s.events.contains ("C", ScriptState.error))) =
      some (some ScriptState.idle, [("w", 1)], ["P"], true) :=
  rfl

/-- A property preserved by every step of a left fold is preserved by the
whole fold. -/
theorem foldl_preserve {α β : Type} {P : β → Prop} (f : β → α → β)
    (hstep : ∀ b a, P b → P (f b a)) :
    ∀ (l : List α) (b : β), P b → P (l.foldl f b) := by
  intro l
  induction l with
  | nil => intro b hb; exact hb
  | cons hd tl ih => intro b hb; exact ih (f b hd) (hstep b hd hb)

/-- Every member of `addEdge es s d v` is the new edge or a member of
`es`. -/
theorem mem_addEdge :
    ∀ (es : List DepEdge) (s d v : String) (x : DepEdge),
      x ∈ addEdge es s d v → x = ⟨s, d, v⟩ ∨ x ∈ es := by
  intro es
  induction es with
  | nil =>
    intro s d v x hx
    simp only [addEdge, List.mem_singleton] at hx
    exact Or.inl hx
  | cons e rest ih =>
    intro s d v x hx
    simp only [addEdge] at hx
    by_cases h : e.src = s ∧ e.dst = d
    · rw [if_pos h] at hx
      rcases List.mem_cons.mp hx with h1 | h2
      · exact Or.inl h1
      · exact Or.inr (List.mem_cons_of_mem _ h2)
    · rw [if_neg h] at hx
      rcases List.mem_cons.mp hx with h1 | h2
      · exact Or.inr (h1 ▸ List.mem_cons_self _ _)
      · rcases ih s d v x h2 with ha | hb
        · exact Or.inl ha
        · exact Or.inr (List.mem_cons_of_mem _ hb)

/-- Adding an edge keeps the DiGraph invariant: no two edges share both
endpoints. -/
theorem addEdge_pairwise :
    ∀ (es : List DepEdge) (s d v : String),
      List.Pairwise edgeKeyNe es → List.Pairwise edgeKeyNe (addEdge es s d v) := by
  intro es
  induction es with
  | nil =>
    intro s d v _
    exact List.pairwise_singleton _ _
  | cons e rest ih =>
    intro s d v hp
    rcases List.pairwise_cons.mp hp with ⟨hhead, htail⟩
    simp only [addEdge]
    by_cases h : e.src = s ∧ e.dst = d
    · rw [if_pos h]
      refine List.pairwise_cons.mpr ⟨?_, htail⟩
      intro e' he'
      intro hcon
      exact hhead e' he' ⟨h.1.trans hcon.1, h.2.trans hcon.2⟩
    · rw [if_neg h]
      refine List.pairwise_cons.mpr ⟨?_, ih s d v htail⟩
      intro e' he'
      rcases mem_addEdge rest s d v e' he' with h1 | h2
      · subst h1
        intro hcon
        exact h ⟨hcon.1, hcon.2⟩
      · exact hhead e' h2

/-- C8 (amended): `build_dependency_graph` uses a `networkx.DiGraph`, so
it keeps at most one edge per (producer, consumer) pair: no two edges of
the built graph share both endpoints.  When a pair shares several
variables, a later `add_edge` overwrites the pair's single edge label
instead of adding a parallel edge; only distinct producers give distinct
edges. -/
theorem c8_no_parallel_edges (registry : List (String × ScriptMeta)) :
    List.Pairwise edgeKeyNe (buildDependencyGraph registry) := by
  simp only [buildDependencyGraph]
  refine foldl_preserve _ ?_ registry [] List.Pairwise.nil
  intro es pm hes
  refine foldl_preserve _ ?_ pm.2.requires es hes
  intro es2 v hes2
  refine foldl_preserve _ ?_ (lookupMulti (varProducers registry) v) es2 hes2
  intro es3 p hes3
  exact addEdge_pairwise es3 p pm.1 v hes3

/-- C8 counterexample: producer P and consumer C share variables a and b,
yet the built graph holds a single edge (P, C) labeled with the later
variable b; the edge labeled a demanded by the claim is absent, and there
is one edge where the claim demands two parallel ones. -/
theorem c8_cex :
    buildDependencyGraph reg8 = [⟨"P", "C", "b"⟩] ∧
    ¬ (DepEdge.mk "P" "C" "a" ∈ buildDependencyGraph reg8) ∧
    (buildDependencyGraph reg8).length = 1 :=
  ⟨rfl, by decide, rfl⟩

/-- C9: evaluation of `run_scheduled_scripts` at a failing input for the
claimed retry overlay: a daily 09:00 entry whose `retryIntervalMinutes`
is 5 and whose last run was 10 minutes ago is ticked at 10:10 — the
elapsed time exceeds the retry interval, yet no script is invoked and the
entry is returned unchanged, because the scheduler never consults the
retry interval. -/
theorem c9_no_retry_eval :
    runScheduledScripts 610 1 1010 [cfg9] = ([], [cfg9]) ∧
    cfg9.retryIntervalMinutes = 5 ∧
    cfg9.lastRun = some 1000 ∧
    1000 + cfg9.retryIntervalMinutes ≤ 1010 :=
  ⟨rfl, rfl, rfl, by decide⟩

/-- C10 (amended): `get_source_script` recomputes provenance from the
registry on demand: it returns the first script in registry order whose
declared produces list contains the variable (none when no script
declares it), irrespective of which script actually wrote the stored
value. -/
theorem c10_first_producer_provenance
    (registry : List (String × ScriptMeta)) (v : String) :
    getSourceScript registry v = specFirstProducer registry v := by
  induction registry with
  | nil => rfl
  | cons pm rest ih =>
    obtain ⟨p, m⟩ := pm
    by_cases h : m.produces.contains v = true
    · have h' : v ∈ m.produces := by simpa using h
      simp [getSourceScript, specFirstProducer, List.find?, h']
    · simp only [getSourceScript, specFirstProducer, List.find?, h] at ih ⊢
      simp only [Bool.false_eq_true, if_false, cond_false]
      exact ih

/-- C10 counterexample: with two declared producers of x (P1 first in the
registry) and only P2 ever executed, the store holds x written by P2 —
the most recent (and only) writer — but the provenance query returns P1,
not P2. -/
theorem c10_cex :
    (runWD behav10 oNone reg10 3 "P2" false false st10).map
        (fun s => (lookupA s.data "x", specLastWriter s.writeLog "x")) =
      some (some 2, some "P2") ∧
    getSourceScript reg10 "x" = some "P1" ∧
    ¬ getSourceScript reg10 "x" = some "P2" :=
  ⟨rfl, rfl, by decide⟩

end Orquestador
